import Mathlib

/-!
# Verification of the smeller_db channel-control configuration model and codec


Shallow embedding of the core of the `smeller_db` repository:

* `src/schemas/channel_control_config.py` — the `Color` and
  `ChannelControlConfig` pydantic models and their field constraints;
* `src/services/database_service.py` — the channel-configuration map codec
  (`_convert_channel_configs_to_json_serializable`,
  `_convert_json_to_channel_configs`) and the AromaBlock service operations;
* `src/smeller_db/orm_client.py` — the unit-of-work context manager
  (`ORMClient.__enter__` / `__exit__`);
* `src/smeller_db/services/database_service_async.py` — the asynchronous
  copies of the codec;
* `src/smeller_db/schemas/interpolation.py` — the `InterpolationType` tags.

JSON-compatible values are modelled by `JValue`; Python floats are modelled by
`Rat` (the codec only passes numbers through, it never computes with them);
Python `dict`s are modelled by association lists with dict update semantics
(`dictInsert`). A pydantic `ValidationError` is modelled by the `.error` case
of `Except String` (or by `none`). Machine-level details of the database
driver are abstracted: the persistence facade is a list of rows.
-/

namespace SmellerDb

/-! ## Decimal printing and parsing of integers

`str(channel_id)` (encode side) and `int(channel_id_str)` (decode side) are
modelled by `pyIntToStr` and `pyParseInt`. `pyParseInt` accepts an optional
sign followed by a nonempty run of decimal digits. Python `int` additionally
strips surrounding whitespace and allows underscore grouping between digits;
no key arising in this development uses those forms, so they are not
modelled. -/

def digitChar (d : Nat) : Char :=
  if d = 0 then '0' else if d = 1 then '1' else if d = 2 then '2'
  else if d = 3 then '3' else if d = 4 then '4' else if d = 5 then '5'
  else if d = 6 then '6' else if d = 7 then '7' else if d = 8 then '8'
  else '9'

def charDigit (c : Char) : Option Nat :=
  if c = '0' then some 0 else if c = '1' then some 1 else if c = '2' then some 2
  else if c = '3' then some 3 else if c = '4' then some 4 else if c = '5' then some 5
  else if c = '6' then some 6 else if c = '7' then some 7 else if c = '8' then some 8
  else if c = '9' then some 9 else none

/-- Little-endian list of decimal digits of a natural number (never empty). -/
def natDigitsLE (n : Nat) : List Nat :=
  if h : n < 10 then [n]
  else
    have : n / 10 < n := Nat.div_lt_self (by omega) (by omega)
    (n % 10) :: natDigitsLE (n / 10)

/-- Value of a little-endian digit list. -/
def leVal : List Nat → Nat
  | [] => 0
  | d :: ds => d + 10 * leVal ds

/-- Value of a little-endian list of digit characters. -/
def digitsVal : List Char → Option Nat
  | [] => some 0
  | c :: cs => (charDigit c).bind fun d => (digitsVal cs).map fun v => d + 10 * v

/-- Parse a nonempty big-endian run of decimal digit characters. -/
def parseDigits : List Char → Option Nat
  | [] => none
  | c :: cs => digitsVal ((c :: cs).reverse)

/-- Big-endian decimal digit characters of a natural number. -/
def natToChars (n : Nat) : List Char := ((natDigitsLE n).map digitChar).reverse

/-- Model of Python `str` applied to an `int`: minus sign for negatives,
then the decimal digits. -/
def pyIntToStrChars (n : Int) : List Char :=
  if n < 0 then '-' :: natToChars n.natAbs else natToChars n.natAbs

/-- Model of Python `int(s)`: optional sign, then a nonempty digit run;
anything else raises `ValueError`, modelled by `none`. -/
def pyParseIntChars : List Char → Option Int
  | [] => none
  | c :: cs =>
    if c = '-' then (parseDigits cs).map fun v => -(Int.ofNat v)
    else if c = '+' then (parseDigits cs).map fun v => Int.ofNat v
    else (parseDigits (c :: cs)).map fun v => Int.ofNat v

def pyIntToStr (n : Int) : String := String.mk (pyIntToStrChars n)

def pyParseInt (s : String) : Option Int := pyParseIntChars s.data

/-! ## JSON-compatible values

The JSON column of `sl_aromablocks` and the keyword-argument payloads fed to
the pydantic constructors are modelled by `JValue`. Python distinguishes
`int` and `float`; both are carried exactly (`Rat` for floats — the code
never computes with them, it only passes them through). -/

inductive JValue where
  | null : JValue
  | jbool : Bool → JValue
  | jint : Int → JValue
  | jnum : Rat → JValue
  | jstr : String → JValue
  | jarr : List JValue → JValue
  | jobj : List (String × JValue) → JValue

/-- First value bound to key `k` (Python dict lookup; dict keys are unique). -/
def lookupField (fields : List (String × JValue)) (k : String) : Option JValue :=
  match fields with
  | [] => none
  | (k2, v) :: rest => if k2 = k then some v else lookupField rest k

/-- Python dict assignment `m[k] = v`: replaces the value in place when the
key is present, otherwise appends the new entry (insertion order kept). -/
def dictInsert {κ α : Type} [DecidableEq κ] (m : List (κ × α)) (k : κ) (v : α) :
    List (κ × α) :=
  if m.any (fun p => decide (p.1 = k)) then
    m.map (fun p => if p.1 = k then (k, v) else p)
  else m ++ [(k, v)]

/-! ## Color (src/schemas/channel_control_config.py, lines 5-17) -/

structure Color where
  r : Int
  g : Int
  b : Int
deriving DecidableEq, Repr

/-- The pydantic field constraints of `Color`: each component carries
`ge=0, le=255`. -/
def Color.Valid (c : Color) : Prop :=
  0 ≤ c.r ∧ c.r ≤ 255 ∧ 0 ≤ c.g ∧ c.g ≤ 255 ∧ 0 ≤ c.b ∧ c.b ≤ 255

instance (c : Color) : Decidable c.Valid := by
  unfold Color.Valid
  infer_instance

/-- `Color(r=..., g=..., b=...)`: pydantic construction from three integers.
`.error` models a `ValidationError` naming the offending field. -/
def colorFromInts (r g b : Int) : Except String Color :=
  if r < 0 ∨ 255 < r then .error "r: outside 0..255"
  else if g < 0 ∨ 255 < g then .error "g: outside 0..255"
  else if b < 0 ∨ 255 < b then .error "b: outside 0..255"
  else .ok ⟨r, g, b⟩

/-! ## InterpolationType (src/smeller_db/schemas/interpolation.py) -/

namespace InterpolationType

def LINEAR : String := "linear"

def EXPONENTIAL : String := "exponential"

def SINUSOIDAL : String := "sinusoidal"

def STEP : String := "step"

def FUNCTION : String := "function"

/-- The closed set of documented interpolation tags. -/
def tags : List String := [LINEAR, EXPONENTIAL, SINUSOIDAL, STEP, FUNCTION]

end InterpolationType

/-! ## ChannelControlConfig (src/schemas/channel_control_config.py, lines 20-38) -/

structure ChannelControlConfig where
  channel_id : Int
  cycle_time : Int
  waypoints : List (Rat × Rat)
  interpolation_type : String
  cartridge_id : String
  cartridge_name : String
  color : Color
deriving DecidableEq, Repr

/-- The constraints a successfully constructed `ChannelControlConfig`
satisfies: `cycle_time` carries `ge=1` and the nested `Color` validates.
All other fields are unconstrained beyond their types. -/
def ChannelControlConfig.Valid (c : ChannelControlConfig) : Prop :=
  1 ≤ c.cycle_time ∧ c.color.Valid

instance (c : ChannelControlConfig) : Decidable c.Valid := by
  unfold ChannelControlConfig.Valid
  infer_instance

/-! ### Pydantic lax coercions

Pydantic v2 in lax mode coerces compatible values to the declared field
types: `int` fields accept ints, floats with zero fractional part and
decimal strings, and reject `bool`; `float` fields accept ints and floats
(numeric strings are not needed by any input in this development and are not
modelled); `str` fields accept only strings. -/

def coerceInt : JValue → Option Int
  | .jint n => some n
  | .jnum q => if q.den = 1 then some q.num else none
  | .jstr s => pyParseInt s
  | _ => none

def coerceFloat : JValue → Option Rat
  | .jint n => some (n : Rat)
  | .jnum q => some q
  | _ => none

def coerceStr : JValue → Option String
  | .jstr s => some s
  | _ => none

/-- A waypoint must decompose into exactly two numeric values
(`Tuple[float, float]`). -/
def coerceWaypoint : JValue → Option (Rat × Rat)
  | .jarr [t, i] =>
    match coerceFloat t, coerceFloat i with
    | some a, some b => some (a, b)
    | _, _ => none
  | _ => none

def coerceWaypointList : List JValue → Option (List (Rat × Rat))
  | [] => some []
  | x :: xs =>
    match coerceWaypoint x, coerceWaypointList xs with
    | some p, some ps => some (p :: ps)
    | _, _ => none

def coerceWaypoints : JValue → Option (List (Rat × Rat))
  | .jarr xs => coerceWaypointList xs
  | _ => none

/-- Nested `Color` validation from a JSON object: requires the `r`, `g`, `b`
keys (extra keys are ignored, pydantic default) and the `0..255` bounds. -/
def coerceColor : JValue → Option Color
  | .jobj fs =>
    match lookupField fs "r", lookupField fs "g", lookupField fs "b" with
    | some vr, some vg, some vb =>
      match coerceInt vr, coerceInt vg, coerceInt vb with
      | some r, some g, some b => (colorFromInts r g b).toOption
      | _, _, _ => none
    | _, _, _ => none
  | _ => none

/-- `ChannelControlConfig(**fields)`: pydantic construction from a keyword
payload. Required fields: `channel_id` (int), `cycle_time` (int, `ge=1`),
`waypoints`, `color`; `interpolation_type` defaults to `"linear"` and is a
free string; `cartridge_id` and `cartridge_name` default to `""`. Extra keys
are ignored (pydantic default). Pydantic collects the errors of every field;
this model reports the first one — an input is rejected by the model exactly
when pydantic raises `ValidationError`, and accepted values coincide. -/
def validateChannelControlConfig (fields : List (String × JValue)) :
    Except String ChannelControlConfig :=
  match lookupField fields "channel_id" with
  | none => .error "channel_id: field required"
  | some vcid =>
    match coerceInt vcid with
    | none => .error "channel_id: not an integer"
    | some cid =>
      match lookupField fields "cycle_time" with
      | none => .error "cycle_time: field required"
      | some vct =>
        match coerceInt vct with
        | none => .error "cycle_time: not an integer"
        | some ct =>
          if ct < 1 then .error "cycle_time: must be at least 1"
          else
            match lookupField fields "waypoints" with
            | none => .error "waypoints: field required"
            | some vwp =>
              match coerceWaypoints vwp with
              | none => .error "waypoints: not a list of numeric pairs"
              | some wps =>
                match
                  (match lookupField fields "interpolation_type" with
                   | none => some InterpolationType.LINEAR
                   | some v => coerceStr v) with
                | none => .error "interpolation_type: not a string"
                | some itp =>
                  match
                    (match lookupField fields "cartridge_id" with
                     | none => some ""
                     | some v => coerceStr v) with
                  | none => .error "cartridge_id: not a string"
                  | some cartid =>
                    match
                      (match lookupField fields "cartridge_name" with
                       | none => some ""
                       | some v => coerceStr v) with
                    | none => .error "cartridge_name: not a string"
                    | some cartname =>
                      match lookupField fields "color" with
                      | none => .error "color: field required"
                      | some vcol =>
                        match coerceColor vcol with
                        | none => .error "color: invalid"
                        | some col =>
                          .ok ⟨cid, ct, wps, itp, cartid, cartname, col⟩

/-! ### model_dump

`config_pydantic.model_dump()` serializes every field in declaration order,
nested models included; waypoint pairs become two-element arrays. -/

def Color.dump (c : Color) : JValue :=
  .jobj [("r", .jint c.r), ("g", .jint c.g), ("b", .jint c.b)]

def ChannelControlConfig.dumpFields (c : ChannelControlConfig) :
    List (String × JValue) :=
  [("channel_id", .jint c.channel_id),
   ("cycle_time", .jint c.cycle_time),
   ("waypoints", .jarr (c.waypoints.map fun p => .jarr [.jnum p.1, .jnum p.2])),
   ("interpolation_type", .jstr c.interpolation_type),
   ("cartridge_id", .jstr c.cartridge_id),
   ("cartridge_name", .jstr c.cartridge_name),
   ("color", c.color.dump)]

def ChannelControlConfig.dump (c : ChannelControlConfig) : JValue :=
  .jobj c.dumpFields

/-! ## The channel-configuration map codec
(src/services/database_service.py, lines 36-69)

`_convert_channel_configs_to_json_serializable` builds a string-keyed dict by
iterating the input map in order; `_convert_json_to_channel_configs` iterates
the stored dict, parses each key with `int(...)` and reconstructs each value
with `ChannelControlConfig(**config_data)`, skipping (with a log line) any
entry whose key raises `ValueError` or whose payload raises a
`ValidationError` (a `ValueError` subclass) or `TypeError`. The leading
underscore of the Python names is dropped (Lean identifiers). -/

namespace DatabaseService

def convert_channel_configs_to_json_serializable
    (channel_configs : List (Int × ChannelControlConfig)) : List (String × JValue) :=
  channel_configs.foldl
    (fun acc p => dictInsert acc (pyIntToStr p.1) (ChannelControlConfig.dump p.2)) []

/-- Processing of one stored entry: `int(channel_id_str)` then
`ChannelControlConfig(**config_data)`; `none` when either step raises one of
the caught exception types (`ValueError`, `TypeError`). A non-object payload
raises `TypeError` from the `**` splat. -/
def decodeEntry (kv : String × JValue) : Option (Int × ChannelControlConfig) :=
  match pyParseInt kv.1 with
  | none => none
  | some cid =>
    match kv.2 with
    | .jobj fs =>
      match validateChannelControlConfig fs with
      | .ok cfg => some (cid, cfg)
      | .error _ => none
    | _ => none

/-- One iteration of the decode loop: on success the reconstructed config is
assigned into the accumulating dict, on a caught failure the entry is
skipped (`continue`). -/
def decodeStep (acc : List (Int × ChannelControlConfig)) (kv : String × JValue) :
    List (Int × ChannelControlConfig) :=
  match decodeEntry kv with
  | some p => dictInsert acc p.1 p.2
  | none => acc

def convert_json_to_channel_configs (json_configs : List (String × JValue)) :
    List (Int × ChannelControlConfig) :=
  json_configs.foldl decodeStep []

end DatabaseService

/-! ## AromaBlock rows, aggregates and service operations
(src/services/database_service.py, lines 170-271; src/models/aroma_block.py)

The relational store visible to SELECT statements is a list of
`AromaBlockRow` (one row per `sl_aromablocks` record). The persistence
facade (SQLAlchemy engine/session) is external; its transactional behaviour
is modelled by `runUnitOfWork` below, translated from
`ORMClient.__enter__`/`__exit__`. -/

structure AromaBlockRow where
  id : Int
  name : String
  description : Option String
  data_type : String
  content_link : String
  channel_configurations : Option (List (String × JValue))
  start_time : Rat
  stop_time : Rat
  aroma_track_id : Option Int

abbrev AromaBlockDB := List AromaBlockRow

/-- `session.get(AromaBlockModel, pk)`. -/
def dbGet (db : AromaBlockDB) (aromablock_id : Int) : Option AromaBlockRow :=
  db.find? fun r => decide (r.id = aromablock_id)

/-- Overwriting the row with the given primary key. -/
def dbSet (db : AromaBlockDB) (aromablock_id : Int) (row : AromaBlockRow) : AromaBlockDB :=
  db.map fun r => if r.id = aromablock_id then row else r

/-- The pydantic `AromaBlock` aggregate (src/schemas/aroma_block.py). -/
structure AromaBlock where
  id : Int
  name : String
  description : Option String
  data_type : String
  content_link : String
  channel_configurations : List (Int × ChannelControlConfig)
  start_time : Rat
  stop_time : Rat
  aroma_track_id : Option Int

/-- The pydantic `AromaBlockCreate` payload (src/schemas/aroma_block.py);
`channel_configurations` already validated into the typed map. -/
structure AromaBlockCreate where
  name : String
  description : Option String
  data_type : String
  content_link : String
  channel_configurations : List (Int × ChannelControlConfig)
  start_time : Rat
  stop_time : Rat
  aroma_track_id : Option Int

namespace DatabaseService

/-- The `AromaBlock(...)` construction shared verbatim by
`get_aromablock_by_id`, `get_all_aromablocks` and `create_aromablock`:
every scalar column copied, and the JSON column decoded after the
`orm_aromablock.channel_configurations or \x7b\x7d` null guard (Python `or`
maps both `None` and an empty dict to an empty dict; `Option.getD []` is the
same function on this model). -/
def blockOfRow (row : AromaBlockRow) : AromaBlock :=
  { id := row.id
    name := row.name
    description := row.description
    data_type := row.data_type
    content_link := row.content_link
    channel_configurations :=
      convert_json_to_channel_configs (row.channel_configurations.getD [])
    start_time := row.start_time
    stop_time := row.stop_time
    aroma_track_id := row.aroma_track_id }

/-- `get_aromablock_by_id` (database_service.py, lines 206-224). -/
def get_aromablock_by_id (db : AromaBlockDB) (aromablock_id : Int) : Option AromaBlock :=
  match dbGet db aromablock_id with
  | some orm_aromablock => some (blockOfRow orm_aromablock)
  | none => none

/-- `get_all_aromablocks` (database_service.py, lines 225-246). -/
def get_all_aromablocks (db : AromaBlockDB) : List AromaBlock :=
  db.map blockOfRow

/-- The row after `update_aromablock` assigns every mutable attribute of the
fetched ORM object, including the re-encoded configuration column. -/
def updatedRow (row : AromaBlockRow) (u : AromaBlockCreate) : AromaBlockRow :=
  { row with
    name := u.name
    description := u.description
    data_type := u.data_type
    content_link := u.content_link
    start_time := u.start_time
    stop_time := u.stop_time
    aroma_track_id := u.aroma_track_id
    channel_configurations :=
      some (convert_channel_configs_to_json_serializable u.channel_configurations) }

/-- `update_aromablock` (database_service.py, lines 247-269). The attribute
assignments stay pending in the outer session (`autoflush=False`, no flush);
the nested `self.get_aromablock_by_id` call opens a separate `ORMClient`
with its own engine and connection, whose SELECT sees only the committed
store `db`. The pending UPDATE is flushed and committed when the outer
`with` block exits, after the return value has been computed. -/
def update_aromablock (db : AromaBlockDB) (aromablock_id : Int) (update_data : AromaBlockCreate) :
    Option AromaBlock × AromaBlockDB :=
  match dbGet db aromablock_id with
  | none => (none, db)
  | some orm_aromablock =>
    (get_aromablock_by_id db aromablock_id,
     dbSet db aromablock_id (updatedRow orm_aromablock update_data))

end DatabaseService

/-! ## Unit of work and persistence errors
(src/smeller_db/orm_client.py, lines 66-99) -/

/-- An error raised by the persistence facade. `sqlalchemy` is a
`SQLAlchemyError` raised by a session operation; `pendingRollback` is the
`PendingRollbackError` (a `SQLAlchemyError` subclass) that `session.commit()`
raises when a previous flush failed and the transaction was deactivated. -/
inductive PError where
  | sqlalchemy : String → PError
  | pendingRollback : PError
deriving DecidableEq, Repr

/-- Injected facade behaviour: which session operations raise. `none` means
the operation succeeds. -/
structure Facade where
  flushError : Option PError
  deleteError : Option PError
deriving DecidableEq, Repr

/-- The session state a `with` block body leaves behind: its pending view of
the rows, and whether a failed flush has deactivated the transaction (the
session is then in the pending-rollback state and can no longer commit). -/
structure SessionState where
  store : AromaBlockDB
  pendingRollback : Bool

/-- `ORMClient.__enter__` / `__exit__` (orm_client.py, lines 66-99): the body
runs in a session over the committed store. On an exception `__exit__` rolls
the session back and returns `False`, so the exception propagates unchanged
to the caller. On normal return `__exit__` calls `session.commit()`: if a
failed flush left the session in the pending-rollback state, `commit` raises
`PendingRollbackError`, which the `except SQLAlchemyError` around the commit
re-raises to the caller — the body return value is discarded and nothing is
persisted; otherwise the pending changes are committed. -/
def runUnitOfWork {α : Type} (db : AromaBlockDB)
    (body : AromaBlockDB → Except PError (α × SessionState)) :
    Except PError α × AromaBlockDB :=
  match body db with
  | .ok (a, s) =>
    if s.pendingRollback then (.error .pendingRollback, db)
    else (.ok a, s.store)
  | .error e => (.error e, db)

namespace DatabaseService

/-- Primary key assigned by the store to a freshly flushed INSERT. -/
def nextBlockId (db : AromaBlockDB) : Int := (db.map fun r => r.id).foldl max 0 + 1

/-- The ORM row built by `create_aromablock` before `db.add`/`db.flush`. -/
def rowOfCreate (bid : Int) (u : AromaBlockCreate) : AromaBlockRow :=
  { id := bid
    name := u.name
    description := u.description
    data_type := u.data_type
    content_link := u.content_link
    channel_configurations :=
      some (convert_channel_configs_to_json_serializable u.channel_configurations)
    start_time := u.start_time
    stop_time := u.stop_time
    aroma_track_id := u.aroma_track_id }

/-- Body of `create_aromablock` (database_service.py, lines 170-205): the
whole body sits in a blanket try/except. When `db.flush()` raises, the
exception is caught, logged, and `None` is computed as the return value —
but the failed flush rolls the INSERT back and leaves the session in the
pending-rollback state, which the commit in `__exit__` then trips over
(see `runUnitOfWork`). On success the returned aggregate is rebuilt from
the flushed row through the decode path. -/
def create_aromablock_body (f : Facade) (u : AromaBlockCreate) (db : AromaBlockDB) :
    Except PError (Option AromaBlock × SessionState) :=
  match f.flushError with
  | some _e => .ok (none, ⟨db, true⟩)
  | none =>
    let row := rowOfCreate (nextBlockId db) u
    .ok (some (blockOfRow row), ⟨db ++ [row], false⟩)

/-- `create_aromablock` run inside its `with ORMClient(...)` block. -/
def create_aromablock (f : Facade) (db : AromaBlockDB) (u : AromaBlockCreate) :
    Except PError (Option AromaBlock) × AromaBlockDB :=
  runUnitOfWork db (create_aromablock_body f u)

/-- Body of `delete_aromablock` (database_service.py, line 270-272, via
`ORMClient.delete`): fetch then delete; there is no try/except here, so a
facade error raised inside the body escapes to `__exit__`. -/
def delete_aromablock_body (f : Facade) (aromablock_id : Int) (db : AromaBlockDB) :
    Except PError (Bool × SessionState) :=
  match f.deleteError with
  | some e => .error e
  | none =>
    match dbGet db aromablock_id with
    | some _ => .ok (true, ⟨db.filter fun r => decide (r.id ≠ aromablock_id), false⟩)
    | none => .ok (false, ⟨db, false⟩)

/-- `delete_aromablock` run inside its `with ORMClient(...)` block. -/
def delete_aromablock (f : Facade) (db : AromaBlockDB) (aromablock_id : Int) :
    Except PError Bool × AromaBlockDB :=
  runUnitOfWork db (delete_aromablock_body f aromablock_id)

end DatabaseService

/-! ## The asynchronous facade
(src/smeller_db/services/database_service_async.py, lines 45-75)

`AsyncDatabaseService` carries its own textual copies of the two codec
functions. They call the `ChannelControlConfig` pydantic model imported from
`smeller_db.schemas.channel_control_config`. -/

namespace AsyncDatabaseService

/-- Modelled from the spec: the module
`smeller_db/schemas/channel_control_config.py`, which defines the
`ChannelControlConfig` used by the async facade, is not under `src/` (only
its importers are). Per spec §2 the async facade is a near-identical copy
using the same channel-control model, and §4.2 gives its construction
contract: `channel_id` required integer; `cycle_time` required with
`cycle_time < 1` rejected; `waypoints` required, each element decomposing
into exactly two numeric values; `color` required and validating per §4.1;
`cartridge_id`/`cartridge_name` defaulting to the empty string; the
interpolation tag treated as a free string (no enum membership check in the
source), defaulting to the LINEAR tag. `none` models the pydantic
`ValidationError`. -/
def validateConfig (fields : List (String × JValue)) : Option ChannelControlConfig :=
  match lookupField fields "channel_id" with
  | none => none
  | some vcid =>
    match coerceInt vcid with
    | none => none
    | some cid =>
      match lookupField fields "cycle_time" with
      | none => none
      | some vct =>
        match coerceInt vct with
        | none => none
        | some ct =>
          if ct < 1 then none
          else
            match lookupField fields "waypoints" with
            | none => none
            | some vwp =>
              match coerceWaypoints vwp with
              | none => none
              | some wps =>
                match
                  (match lookupField fields "interpolation_type" with
                   | none => some InterpolationType.LINEAR
                   | some v => coerceStr v) with
                | none => none
                | some itp =>
                  match
                    (match lookupField fields "cartridge_id" with
                     | none => some ""
                     | some v => coerceStr v) with
                  | none => none
                  | some cartid =>
                    match
                      (match lookupField fields "cartridge_name" with
                       | none => some ""
                       | some v => coerceStr v) with
                    | none => none
                    | some cartname =>
                      match lookupField fields "color" with
                      | none => none
                      | some vcol =>
                        match coerceColor vcol with
                        | none => none
                        | some col =>
                          some ⟨cid, ct, wps, itp, cartid, cartname, col⟩

/-- Modelled from the spec: `model_dump()` of the async ChannelControlConfig,
following the storage column shape of §6 — an object with fields
`channel_id` (integer), `cycle_time` (number), `waypoints` (array of
2-element numeric arrays), `interpolation_type` (string), `cartridge_id`
(string), `cartridge_name` (string), `color` (object with `r`, `g`, `b`). -/
def dumpConfig (c : ChannelControlConfig) : JValue :=
  .jobj [("channel_id", .jint c.channel_id),
         ("cycle_time", .jint c.cycle_time),
         ("waypoints", .jarr (c.waypoints.map fun p => .jarr [.jnum p.1, .jnum p.2])),
         ("interpolation_type", .jstr c.interpolation_type),
         ("cartridge_id", .jstr c.cartridge_id),
         ("cartridge_name", .jstr c.cartridge_name),
         ("color", .jobj [("r", .jint c.color.r), ("g", .jint c.color.g),
                          ("b", .jint c.color.b)])]

/-- `AsyncDatabaseService._convert_channel_configs_to_json_serializable`
(database_service_async.py, lines 45-56). -/
def convert_channel_configs_to_json_serializable
    (channel_configs : List (Int × ChannelControlConfig)) : List (String × JValue) :=
  channel_configs.foldl
    (fun acc p => dictInsert acc (pyIntToStr p.1) (dumpConfig p.2)) []

/-- One stored entry processed by the async decode loop: `int(channel_id_str)`
then the async `ChannelControlConfig(**config_data)`, with `ValueError` and
`TypeError` caught. -/
def decodeEntry (kv : String × JValue) : Option (Int × ChannelControlConfig) :=
  match pyParseInt kv.1 with
  | none => none
  | some cid =>
    match kv.2 with
    | .jobj fs =>
      match validateConfig fs with
      | some cfg => some (cid, cfg)
      | none => none
    | _ => none

/-- One iteration of the async decode loop
(database_service_async.py, lines 58-75). -/
def decodeStep (acc : List (Int × ChannelControlConfig)) (kv : String × JValue) :
    List (Int × ChannelControlConfig) :=
  match decodeEntry kv with
  | some p => dictInsert acc p.1 p.2
  | none => acc

/-- `AsyncDatabaseService._convert_json_to_channel_configs`
(database_service_async.py, lines 58-75). -/
def convert_json_to_channel_configs (json_configs : List (String × JValue)) :
    List (Int × ChannelControlConfig) :=
  json_configs.foldl decodeStep []

end AsyncDatabaseService

/-! ## Concrete fixtures for witnesses and counterexamples -/

def cfgLinear : ChannelControlConfig :=
  { channel_id := 1
    cycle_time := 30
    waypoints := [(0, 0), (1/2, 1), (1, 1/2)]
    interpolation_type := "linear"
    cartridge_id := "a1b2"
    cartridge_name := "Rain Fresh"
    color := ⟨50, 150, 200⟩ }

def cfgExp : ChannelControlConfig :=
  { channel_id := 2
    cycle_time := 45
    waypoints := [(0, 1), (7/10, 1/5), (1, 0)]
    interpolation_type := "exponential"
    cartridge_id := "f0e9"
    cartridge_name := "Morning Fresh"
    color := ⟨0, 120, 0⟩ }

/-- A two-channel configuration map. -/
def mGood : List (Int × ChannelControlConfig) := [(1, cfgLinear), (2, cfgExp)]

/-- A storage value with one well-formed entry and one non-integer key. -/
def jMixed : List (String × JValue) :=
  [("1", ChannelControlConfig.dump cfgLinear), ("abc", ChannelControlConfig.dump cfgExp)]

/-- Keyword payloads exercising the ChannelControlConfig validation. -/
def fsNoChannel : List (String × JValue) := [("cycle_time", .jint 30)]

def fsBadChannel : List (String × JValue) :=
  [("channel_id", .jstr "x"), ("cycle_time", .jint 30)]

def fsCycZero : List (String × JValue) :=
  [("channel_id", .jint 1), ("cycle_time", .jint 0)]

/-- A payload whose interpolation tag is outside the documented closed set. -/
def bananaFields : List (String × JValue) :=
  [("channel_id", .jint 1),
   ("cycle_time", .jint 60),
   ("waypoints", .jarr []),
   ("interpolation_type", .jstr "banana"),
   ("color", .jobj [("r", .jint 0), ("g", .jint 0), ("b", .jint 0)])]

def bananaConfig : ChannelControlConfig :=
  { channel_id := 1
    cycle_time := 60
    waypoints := []
    interpolation_type := "banana"
    cartridge_id := ""
    cartridge_name := ""
    color := ⟨0, 0, 0⟩ }

/-- A stored row whose JSON column is NULL. -/
def rowNull : AromaBlockRow :=
  { id := 1
    name := "Block"
    description := none
    data_type := "audio/wav"
    content_link := "http://example.com/a.wav"
    channel_configurations := none
    start_time := 0
    stop_time := 120
    aroma_track_id := some 1 }

def dbNull : AromaBlockDB := [rowNull]

/-- A stored row as it exists before an update. -/
def rowOld : AromaBlockRow :=
  { id := 1
    name := "Old Name"
    description := none
    data_type := "audio/wav"
    content_link := "http://example.com/a.wav"
    channel_configurations := some []
    start_time := 0
    stop_time := 120
    aroma_track_id := some 1 }

def dbOld : AromaBlockDB := [rowOld]

/-- An update payload changing the name and the configuration map. -/
def updNew : AromaBlockCreate :=
  { name := "New Name"
    description := some "updated"
    data_type := "audio/wav"
    content_link := "http://example.com/b.wav"
    channel_configurations := [(1, cfgExp)]
    start_time := 5
    stop_time := 125
    aroma_track_id := some 1 }

/-- A facade whose `flush` raises a `SQLAlchemyError`. -/
def facadeFlushFail : Facade := ⟨some (.sqlalchemy "insert failed"), none⟩

/-- A facade whose `flush` and `delete` both raise. -/
def facadeBoth : Facade :=
  ⟨some (.sqlalchemy "insert failed late"), some (.sqlalchemy "delete failed")⟩









theorem leVal_natDigitsLE (n : Nat) : leVal (natDigitsLE n) = n := by
  induction n using Nat.strong_induction_on with
  | _ n ih =>
    unfold natDigitsLE
    split
    · simp [leVal]
    · rename_i h
      have hlt : n / 10 < n := Nat.div_lt_self (by omega) (by omega)
      simp only [leVal, ih _ hlt]
      omega

theorem natDigitsLE_lt (n : Nat) : ∀ d ∈ natDigitsLE n, d < 10 := by
  induction n using Nat.strong_induction_on with
  | _ n ih =>
    unfold natDigitsLE
    split
    · intro d hd
      simp only [List.mem_singleton] at hd
      omega
    · rename_i h
      intro d hd
      simp only [List.mem_cons] at hd
      rcases hd with h1 | h2
      · omega
      · exact ih _ (Nat.div_lt_self (by omega) (by omega)) d h2

theorem natDigitsLE_ne_nil (n : Nat) : natDigitsLE n ≠ [] := by
  unfold natDigitsLE
  split <;> simp

theorem charDigit_digitChar (d : Nat) (h : d < 10) : charDigit (digitChar d) = some d := by
  interval_cases d <;> rfl

theorem digitChar_ne_signs (d : Nat) : digitChar d ≠ '-' ∧ digitChar d ≠ '+' := by
  unfold digitChar
  split_ifs <;> exact ⟨by decide, by decide⟩

theorem digitsVal_map_digitChar (ds : List Nat) (h : ∀ d ∈ ds, d < 10) :
    digitsVal (ds.map digitChar) = some (leVal ds) := by
  induction ds with
  | nil => rfl
  | cons d ds ih =>
    have hd : d < 10 := h d (List.mem_cons_self d ds)
    have hds : ∀ x ∈ ds, x < 10 := fun x hx => h x (List.mem_cons_of_mem d hx)
    simp [digitsVal, charDigit_digitChar d hd, ih hds, leVal]

theorem natToChars_ne_nil (n : Nat) : natToChars n ≠ [] := by
  simp [natToChars, natDigitsLE_ne_nil n]

theorem parseDigits_natToChars (n : Nat) : parseDigits (natToChars n) = some n := by
  have h2 : digitsVal (natToChars n).reverse = some n := by
    simp [natToChars, digitsVal_map_digitChar _ (natDigitsLE_lt n), leVal_natDigitsLE]
  rcases hcs : natToChars n with _ | ⟨c, cs⟩
  · exact absurd hcs (natToChars_ne_nil n)
  · rw [parseDigits, ← hcs]
    exact h2

theorem natToChars_head_ne_signs (n : Nat) (c : Char) (cs : List Char)
    (h : natToChars n = c :: cs) : c ≠ '-' ∧ c ≠ '+' := by
  have hm : c ∈ natToChars n := by rw [h]; exact List.mem_cons_self c cs
  rw [natToChars] at hm
  simp only [List.mem_reverse, List.mem_map] at hm
  obtain ⟨d, _, hd⟩ := hm
  rw [← hd]
  exact digitChar_ne_signs d

theorem pyParseInt_pyIntToStr (n : Int) : pyParseInt (pyIntToStr n) = some n := by
  show pyParseIntChars (pyIntToStrChars n) = some n
  rw [pyIntToStrChars]
  split
  · rename_i h
    rw [pyParseIntChars]
    rw [if_pos rfl, parseDigits_natToChars, Option.map_some']
    exact congrArg some (by simp only [Int.ofNat_eq_natCast]; omega)
  · rename_i h
    rcases hcs : natToChars n.natAbs with _ | ⟨c, cs⟩
    · exact absurd hcs (natToChars_ne_nil n.natAbs)
    · have hc := natToChars_head_ne_signs n.natAbs c cs hcs
      have hp : parseDigits (c :: cs) = some n.natAbs := by
        rw [← hcs, parseDigits_natToChars]
      rw [pyParseIntChars, if_neg hc.1, if_neg hc.2, hp, Option.map_some']
      exact congrArg some (by simp only [Int.ofNat_eq_natCast]; omega)

theorem pyIntToStr_injective : Function.Injective pyIntToStr := by
  intro a b h
  have ha := pyParseInt_pyIntToStr a
  rw [h, pyParseInt_pyIntToStr b] at ha
  exact (Option.some.injEq _ _).mp ha.symm

theorem dictInsert_fresh {κ α : Type} [DecidableEq κ] (m : List (κ × α)) (k : κ) (v : α)
    (h : k ∉ m.map Prod.fst) : dictInsert m k v = m ++ [(k, v)] := by
  rw [dictInsert, if_neg]
  simp only [List.any_eq_true, decide_eq_true_eq, not_exists, not_and]
  intro p hp hk
  exact h (hk ▸ List.mem_map_of_mem Prod.fst hp)

/-! ### Characterizations of the two folds -/

theorem decode_foldl_eq_filterMap (l : List (String × JValue))
    (acc : List (Int × ChannelControlConfig))
    (hfresh : ∀ p ∈ l.filterMap DatabaseService.decodeEntry, p.1 ∉ acc.map Prod.fst)
    (hnd : ((l.filterMap DatabaseService.decodeEntry).map Prod.fst).Nodup) :
    l.foldl DatabaseService.decodeStep acc
      = acc ++ l.filterMap DatabaseService.decodeEntry := by
  induction l generalizing acc with
  | nil => simp
  | cons x xs ih =>
    rw [List.foldl_cons]
    cases hfx : DatabaseService.decodeEntry x with
    | none =>
      rw [List.filterMap_cons_none hfx] at hfresh hnd ⊢
      simp only [DatabaseService.decodeStep, hfx]
      exact ih acc hfresh hnd
    | some p =>
      rw [List.filterMap_cons_some hfx] at hfresh hnd ⊢
      simp only [DatabaseService.decodeStep, hfx]
      have hp : p.1 ∉ acc.map Prod.fst := hfresh p (List.mem_cons_self p _)
      rw [dictInsert_fresh acc p.1 p.2 hp]
      simp only [List.map_cons, List.nodup_cons] at hnd
      have hfresh2 : ∀ q ∈ xs.filterMap DatabaseService.decodeEntry,
          q.1 ∉ (acc ++ [(p.1, p.2)]).map Prod.fst := by
        intro q hq
        simp only [List.map_append, List.mem_append, List.map_cons, List.map_nil,
          List.mem_singleton]
        rintro (hin | hq1)
        · exact hfresh q (List.mem_cons_of_mem p hq) hin
        · exact hnd.1 (hq1 ▸ List.mem_map_of_mem Prod.fst hq)
      have := ih (acc ++ [(p.1, p.2)]) hfresh2 hnd.2
      rw [this, List.append_assoc]
      rfl

theorem encode_foldl_eq_map (m : List (Int × ChannelControlConfig))
    (acc : List (String × JValue))
    (hfresh : ∀ p ∈ m, pyIntToStr p.1 ∉ acc.map Prod.fst)
    (hnd : (m.map fun p => pyIntToStr p.1).Nodup) :
    m.foldl (fun acc2 p => dictInsert acc2 (pyIntToStr p.1) (ChannelControlConfig.dump p.2)) acc
      = acc ++ m.map fun p => (pyIntToStr p.1, ChannelControlConfig.dump p.2) := by
  induction m generalizing acc with
  | nil => simp
  | cons p ps ih =>
    rw [List.foldl_cons]
    have hp : pyIntToStr p.1 ∉ acc.map Prod.fst := hfresh p (List.mem_cons_self p ps)
    rw [dictInsert_fresh acc _ _ hp]
    simp only [List.map_cons, List.nodup_cons] at hnd
    have hfresh2 : ∀ q ∈ ps, pyIntToStr q.1 ∉ (acc ++ [(pyIntToStr p.1, ChannelControlConfig.dump p.2)]).map Prod.fst := by
      intro q hq
      simp only [List.map_append, List.mem_append, List.map_cons, List.map_nil,
        List.mem_singleton]
      rintro (hin | hq1)
      · exact hfresh q (List.mem_cons_of_mem p hq) hin
      · exact hnd.1 (hq1 ▸ List.mem_map_of_mem (fun r => pyIntToStr r.1) hq)
    rw [ih (acc ++ [(pyIntToStr p.1, ChannelControlConfig.dump p.2)]) hfresh2 hnd.2,
      List.append_assoc]
    rfl

/-- Under distinct keys, encode is exactly the entrywise serialization. -/
theorem encode_eq_map (m : List (Int × ChannelControlConfig))
    (hkeys : (m.map Prod.fst).Nodup) :
    DatabaseService.convert_channel_configs_to_json_serializable m
      = m.map fun p => (pyIntToStr p.1, ChannelControlConfig.dump p.2) := by
  have hnd : (m.map fun p => pyIntToStr p.1).Nodup := by
    have : (m.map fun p => pyIntToStr p.1) = (m.map Prod.fst).map pyIntToStr := by
      rw [List.map_map]
      rfl
    rw [this]
    exact hkeys.map pyIntToStr_injective
  have := encode_foldl_eq_map m [] (by simp) hnd
  simpa [DatabaseService.convert_channel_configs_to_json_serializable] using this

/-! ### Round-trip of a single serialized entry -/

theorem coerceWaypointList_map (wps : List (Rat × Rat)) :
    coerceWaypointList (wps.map fun p => JValue.jarr [.jnum p.1, .jnum p.2]) = some wps := by
  induction wps with
  | nil => rfl
  | cons p ps ih => simp [coerceWaypointList, coerceWaypoint, coerceFloat, ih]

theorem colorFromInts_valid (c : Color) (h : c.Valid) : colorFromInts c.r c.g c.b = .ok c := by
  obtain ⟨h1, h2, h3, h4, h5, h6⟩ := h
  rw [colorFromInts, if_neg (by omega), if_neg (by omega), if_neg (by omega)]

theorem coerceColor_dump (c : Color) (h : c.Valid) : coerceColor c.dump = some c := by
  simp [Color.dump, coerceColor, lookupField, coerceInt, colorFromInts_valid c h,
    Except.toOption]

theorem validate_dump (c : ChannelControlConfig) (h : c.Valid) :
    validateChannelControlConfig c.dumpFields = .ok c := by
  obtain ⟨h1, h2⟩ := h
  simp [validateChannelControlConfig, ChannelControlConfig.dumpFields, lookupField,
    coerceInt, coerceStr, coerceWaypoints, coerceWaypointList_map,
    coerceColor_dump c.color h2, show ¬ c.cycle_time < 1 by omega]

theorem decodeEntry_dump (k : Int) (c : ChannelControlConfig) (h : c.Valid) :
    DatabaseService.decodeEntry (pyIntToStr k, ChannelControlConfig.dump c) = some (k, c) := by
  simp [DatabaseService.decodeEntry, pyParseInt_pyIntToStr, ChannelControlConfig.dump,
    validate_dump c h]

/-! ### Agreement of the synchronous and asynchronous validators -/

theorem dump_eq_dumpConfig (c : ChannelControlConfig) :
    ChannelControlConfig.dump c = AsyncDatabaseService.dumpConfig c := rfl

theorem validate_toOption_eq (fields : List (String × JValue)) :
    (validateChannelControlConfig fields).toOption
      = AsyncDatabaseService.validateConfig fields := by
  unfold validateChannelControlConfig AsyncDatabaseService.validateConfig
  repeat' split
  all_goals rfl

theorem decodeEntry_eq (kv : String × JValue) :
    DatabaseService.decodeEntry kv = AsyncDatabaseService.decodeEntry kv := by
  unfold DatabaseService.decodeEntry AsyncDatabaseService.decodeEntry
  cases pyParseInt kv.1 with
  | none => rfl
  | some cid =>
    cases kv.2 with
    | jobj fs =>
      have h := validate_toOption_eq fs
      cases hv : validateChannelControlConfig fs with
      | ok cfg =>
        have ha : AsyncDatabaseService.validateConfig fs = some cfg := by
          rw [← h, hv]
          rfl
        simp [hv, ha]
      | error msg =>
        have ha : AsyncDatabaseService.validateConfig fs = none := by
          rw [← h, hv]
          rfl
        simp [hv, ha]
    | null => rfl
    | jbool b => rfl
    | jint n => rfl
    | jnum q => rfl
    | jstr s2 => rfl
    | jarr xs => rfl

/-! ## Claim theorems -/

theorem filterMap_decodeEntry_map (m : List (Int × ChannelControlConfig))
    (hval : ∀ p ∈ m, p.2.Valid) :
    (m.map fun p => (pyIntToStr p.1, ChannelControlConfig.dump p.2)).filterMap
      DatabaseService.decodeEntry = m := by
  induction m with
  | nil => rfl
  | cons p ps ih =>
    rw [List.map_cons,
      List.filterMap_cons_some (decodeEntry_dump p.1 p.2 (hval p (List.mem_cons_self p ps))),
      ih fun q hq => hval q (List.mem_cons_of_mem p hq)]

/-- C1: for every map from integer channel ids to `ChannelControlConfig`
values whose entries each pass validation (`Valid`, the constraints every
successfully constructed config satisfies), decoding the encoding yields the
map unchanged — integer keys, waypoints, interpolation tags, nested Color
and cartridge fields all preserved. The key-distinctness hypothesis is what
makes the association list a map (a Python dict has unique keys). -/
theorem decode_encode_roundtrip (m : List (Int × ChannelControlConfig))
    (hkeys : (m.map Prod.fst).Nodup) (hval : ∀ p ∈ m, p.2.Valid) :
    DatabaseService.convert_json_to_channel_configs
      (DatabaseService.convert_channel_configs_to_json_serializable m) = m := by
  rw [encode_eq_map m hkeys]
  have hfm := filterMap_decodeEntry_map m hval
  have hnd : (((m.map fun p => (pyIntToStr p.1, ChannelControlConfig.dump p.2)).filterMap
      DatabaseService.decodeEntry).map Prod.fst).Nodup := by
    rw [hfm]
    exact hkeys
  have hfold := decode_foldl_eq_filterMap
    (m.map fun p => (pyIntToStr p.1, ChannelControlConfig.dump p.2)) [] (by simp) hnd
  unfold DatabaseService.convert_json_to_channel_configs
  rw [hfold, List.nil_append, hfm]

theorem decode_encode_roundtrip_witness :
    DatabaseService.convert_json_to_channel_configs
      (DatabaseService.convert_channel_configs_to_json_serializable mGood) = mGood :=
  decode_encode_roundtrip mGood (by decide) (by decide)

/-- C2: decode is total (it is a Lean function, and every per-entry failure
mode of the source — `ValueError` from `int`, `TypeError` from the `**`
splat, `ValidationError` from pydantic — is caught and modelled by
`decodeEntry` returning `none`); whenever the successfully parsed integer
keys are distinct, the result is exactly the list of successfully
reconstructed entries, each failing entry being skipped. -/
theorem decode_entry_granular (json_configs : List (String × JValue))
    (hkeys : ((json_configs.filterMap DatabaseService.decodeEntry).map Prod.fst).Nodup) :
    DatabaseService.convert_json_to_channel_configs json_configs
      = json_configs.filterMap DatabaseService.decodeEntry := by
  have hfold := decode_foldl_eq_filterMap json_configs [] (by simp) hkeys
  unfold DatabaseService.convert_json_to_channel_configs
  rw [hfold, List.nil_append]

/-- C2 witness at the input from the claim: one well-formed entry and one
entry with non-integer key "abc"; only the well-formed entry survives. -/
theorem decode_entry_granular_witness :
    DatabaseService.convert_json_to_channel_configs jMixed = [(1, cfgLinear)] := by
  rw [decode_entry_granular jMixed (by decide)]
  rfl

/-- C3: decoding an empty mapping yields the empty map, and the read path of
`get_aromablock_by_id` substitutes the empty mapping for a NULL stored
column value before decoding, so a block whose JSON column is NULL comes
back with an empty configuration map (and no error: every function here is
total). -/
theorem decode_null_or_empty (db : AromaBlockDB) (aromablock_id : Int) (row : AromaBlockRow)
    (hget : dbGet db aromablock_id = some row)
    (hnull : row.channel_configurations = none) :
    DatabaseService.convert_json_to_channel_configs [] = []
    ∧ (DatabaseService.get_aromablock_by_id db aromablock_id).map
        (fun b => b.channel_configurations) = some [] := by
  refine ⟨rfl, ?_⟩
  rw [DatabaseService.get_aromablock_by_id, hget]
  simp [DatabaseService.blockOfRow, hnull]
  rfl

theorem decode_null_or_empty_witness :
    DatabaseService.convert_json_to_channel_configs [] = []
    ∧ (DatabaseService.get_aromablock_by_id dbNull 1).map
        (fun b => b.channel_configurations) = some [] :=
  decode_null_or_empty dbNull 1 rowNull rfl rfl

/-- C7: encode is total over any input map (distinct keys, as a Python dict
has) and lossless: it equals the entrywise serialization, so it keeps one
entry per input entry, keyed by the decimal string of the channel id, valued
by the full field-by-field `model_dump`; nothing is dropped. -/
theorem encode_total_lossless (m : List (Int × ChannelControlConfig))
    (hkeys : (m.map Prod.fst).Nodup) :
    DatabaseService.convert_channel_configs_to_json_serializable m
        = m.map (fun p => (pyIntToStr p.1, ChannelControlConfig.dump p.2))
    ∧ (DatabaseService.convert_channel_configs_to_json_serializable m).length = m.length
    ∧ ∀ p ∈ m, (pyIntToStr p.1, ChannelControlConfig.dump p.2)
        ∈ DatabaseService.convert_channel_configs_to_json_serializable m := by
  have he := encode_eq_map m hkeys
  refine ⟨he, by rw [he]; simp, ?_⟩
  intro p hp
  rw [he]
  exact List.mem_map_of_mem _ hp

theorem encode_total_lossless_witness :
    (DatabaseService.convert_channel_configs_to_json_serializable mGood).length = mGood.length
    ∧ (pyIntToStr 1, ChannelControlConfig.dump cfgLinear)
        ∈ DatabaseService.convert_channel_configs_to_json_serializable mGood :=
  ⟨(encode_total_lossless mGood (by decide)).2.1,
   (encode_total_lossless mGood (by decide)).2.2 (1, cfgLinear)
     (List.mem_cons_self (1, cfgLinear) [(2, cfgExp)])⟩

/-- C4: constructing a `Color` from three integers succeeds with all three
field values preserved exactly iff each lies in [0, 255]; whenever any
component is below 0 or above 255 construction fails with a
`ValidationError` (the `.error` case). -/
theorem color_construction (r g b : Int) :
    (colorFromInts r g b = .ok ⟨r, g, b⟩
       ↔ (0 ≤ r ∧ r ≤ 255 ∧ 0 ≤ g ∧ g ≤ 255 ∧ 0 ≤ b ∧ b ≤ 255))
    ∧ ((r < 0 ∨ 255 < r ∨ g < 0 ∨ 255 < g ∨ b < 0 ∨ 255 < b) →
       ∃ e, colorFromInts r g b = .error e) := by
  refine ⟨⟨?_, ?_⟩, ?_⟩
  · intro h
    rw [colorFromInts] at h
    split_ifs at h with h1 h2 h3
    all_goals try simp at h
    omega
  · intro hb
    rw [colorFromInts, if_neg (by omega), if_neg (by omega), if_neg (by omega)]
  · intro hb
    rw [colorFromInts]
    split_ifs with h1 h2 h3
    · exact ⟨_, rfl⟩
    · exact ⟨_, rfl⟩
    · exact ⟨_, rfl⟩
    · omega

theorem color_construction_witness :
    colorFromInts 50 150 200 = .ok ⟨50, 150, 200⟩
    ∧ ∃ e, colorFromInts 300 0 0 = .error e :=
  ⟨(color_construction 50 150 200).1.mpr (by omega),
   (color_construction 300 0 0).2 (by omega)⟩

/-- C5: `ChannelControlConfig` construction fails with a `ValidationError`
when `channel_id` is missing or its value is not coercible to an integer,
and when `cycle_time` coerces to an integer below 1; consequently every
successfully constructed config has `cycle_time ≥ 1` (its `channel_id` is
an integer by type). -/
theorem config_construction_requirements (fields : List (String × JValue)) :
    (lookupField fields "channel_id" = none →
       ∃ e, validateChannelControlConfig fields = .error e)
    ∧ (∀ v, lookupField fields "channel_id" = some v → coerceInt v = none →
       ∃ e, validateChannelControlConfig fields = .error e)
    ∧ (∀ v k, lookupField fields "cycle_time" = some v → coerceInt v = some k → k < 1 →
       ∃ e, validateChannelControlConfig fields = .error e)
    ∧ (∀ c, validateChannelControlConfig fields = .ok c → 1 ≤ c.cycle_time) := by
  refine ⟨?_, ?_, ?_, ?_⟩
  · intro h
    exact ⟨"channel_id: field required", by simp [validateChannelControlConfig, h]⟩
  · intro v hv hci
    exact ⟨"channel_id: not an integer", by simp [validateChannelControlConfig, hv, hci]⟩
  · intro v k hv hci hk
    rcases h1 : lookupField fields "channel_id" with _ | vcid
    · exact ⟨"channel_id: field required", by simp [validateChannelControlConfig, h1]⟩
    · rcases h2 : coerceInt vcid with _ | cid
      · exact ⟨"channel_id: not an integer", by simp [validateChannelControlConfig, h1, h2]⟩
      · exact ⟨"cycle_time: must be at least 1",
          by simp [validateChannelControlConfig, h1, h2, hv, hci, hk]⟩
  · intro c hc
    rw [validateChannelControlConfig] at hc
    repeat' split at hc
    all_goals try simp at hc
    subst hc
    dsimp only
    omega

theorem config_construction_requirements_witness :
    (∃ e, validateChannelControlConfig fsNoChannel = .error e)
    ∧ (∃ e, validateChannelControlConfig fsBadChannel = .error e)
    ∧ (∃ e, validateChannelControlConfig fsCycZero = .error e)
    ∧ 1 ≤ cfgLinear.cycle_time :=
  ⟨(config_construction_requirements fsNoChannel).1 rfl,
   (config_construction_requirements fsBadChannel).2.1 (.jstr "x") rfl rfl,
   (config_construction_requirements fsCycZero).2.2.1 (.jint 0) 0 rfl rfl (by decide),
   (config_construction_requirements cfgLinear.dumpFields).2.2.2 cfgLinear rfl⟩

/-- C6 counterexample: the claim says construction with a tag outside
LINEAR/EXPONENTIAL/SINUSOIDAL/STEP/FUNCTION does not succeed; but
`interpolation_type` is a plain `str` field with no membership check, so
construction with the tag "banana" succeeds. -/
theorem interpolation_enum_counterexample :
    validateChannelControlConfig bananaFields = .ok bananaConfig
    ∧ bananaConfig.interpolation_type ∉ InterpolationType.tags :=
  ⟨rfl, by decide⟩

/-- C6 amended: the interpolation tag of every successfully constructed
`ChannelControlConfig` is exactly the string supplied for
`interpolation_type`, or the default LINEAR tag "linear" when the field is
absent; membership in the documented closed set is not checked. -/
theorem interpolation_free_string (fields : List (String × JValue))
    (c : ChannelControlConfig) (h : validateChannelControlConfig fields = .ok c) :
    lookupField fields "interpolation_type" = some (.jstr c.interpolation_type)
    ∨ (lookupField fields "interpolation_type" = none
       ∧ c.interpolation_type = InterpolationType.LINEAR) := by
  rw [validateChannelControlConfig] at h
  rcases hit : lookupField fields "interpolation_type" with _ | v
  · right
    simp only [hit] at h
    repeat' split at h
    all_goals try simp at h
    subst h
    exact ⟨rfl, rfl⟩
  · left
    simp only [hit] at h
    repeat' split at h
    all_goals try simp at h
    subst h
    cases v <;> simp_all [coerceStr]

theorem interpolation_free_string_witness :
    lookupField cfgLinear.dumpFields "interpolation_type"
        = some (.jstr cfgLinear.interpolation_type)
    ∨ (lookupField cfgLinear.dumpFields "interpolation_type" = none
       ∧ cfgLinear.interpolation_type = InterpolationType.LINEAR) :=
  interpolation_free_string cfgLinear.dumpFields cfgLinear rfl

/-- C8: evaluation at a failing input. `update_aromablock` does overwrite all
mutable fields (visible in the committed store it returns) and does return
the not-found signal `none` for a missing id with the state unchanged; but
the aggregate it returns is produced by `get_aromablock_by_id` running in a
separate session before the unit of work commits, so it is the PRE-update
aggregate: here the caller gets back "Old Name" although the committed row,
re-read after the call, carries "New Name". -/
theorem update_aromablock_stale_read :
    ((DatabaseService.update_aromablock dbOld 1 updNew).1.map fun b => b.name)
        = some "Old Name"
    ∧ ((DatabaseService.get_aromablock_by_id
          (DatabaseService.update_aromablock dbOld 1 updNew).2 1).map fun b => b.name)
        = some "New Name"
    ∧ DatabaseService.update_aromablock dbOld 2 updNew = (none, dbOld) :=
  ⟨rfl, rfl, rfl⟩

/-- C9 counterexample: `create_aromablock` is a core mutation, yet when the
facade raises a `PersistenceError` at `db.flush()`, the caller does not
receive that error propagated unchanged: the blanket `except Exception`
inside the unit of work catches the original `SQLAlchemyError` (logging it
and computing `None`), and the commit in `ORMClient.__exit__` then raises
`PendingRollbackError` on the deactivated session — a converted error,
different from the one the facade raised. -/
theorem create_converts_persistence_error :
    DatabaseService.create_aromablock facadeFlushFail dbOld updNew
        = (Except.error PError.pendingRollback, dbOld)
    ∧ facadeFlushFail.flushError = some (PError.sqlalchemy "insert failed")
    ∧ PError.pendingRollback ≠ PError.sqlalchemy "insert failed" :=
  ⟨rfl, rfl, by decide⟩

/-- C9 amended: when the persistence facade raises a `PersistenceError`
during `delete_aromablock` (whose body has no try/except), the unit of work
rolls back — the committed store is unchanged — and the error object is
propagated unchanged to the caller, with no retry; but in
`create_aromablock` the blanket `except Exception` inside the unit of work
catches the original error (logging it and computing the not-found signal
`None`), after which the commit in `ORMClient.__exit__` raises
`PendingRollbackError` on the session the failed flush deactivated — the
caller receives that converted error, not the facade error, and nothing is
persisted. -/
theorem persistence_error_rollback_propagation (f : Facade) (db : AromaBlockDB)
    (aromablock_id : Int) (u : AromaBlockCreate) (e e2 : PError)
    (hdel : f.deleteError = some e) (hflush : f.flushError = some e2) :
    DatabaseService.delete_aromablock f db aromablock_id = (.error e, db)
    ∧ DatabaseService.create_aromablock f db u = (.error .pendingRollback, db) := by
  constructor
  · simp [DatabaseService.delete_aromablock, DatabaseService.delete_aromablock_body,
      hdel, runUnitOfWork]
  · simp [DatabaseService.create_aromablock, DatabaseService.create_aromablock_body,
      hflush, runUnitOfWork]

theorem persistence_error_rollback_propagation_witness :
    DatabaseService.delete_aromablock facadeBoth dbNull 1
        = (.error (.sqlalchemy "delete failed"), dbNull)
    ∧ DatabaseService.create_aromablock facadeBoth dbNull updNew
        = (.error .pendingRollback, dbNull) :=
  persistence_error_rollback_propagation facadeBoth dbNull 1 updNew
    (.sqlalchemy "delete failed") (.sqlalchemy "insert failed late") rfl rfl

/-- C10: the synchronous and asynchronous facades implement the same codec:
their encode functions agree on every configuration map and their decode
functions agree on every storage value (skipping exactly the same entries,
since the per-entry processors coincide). -/
theorem sync_async_codecs_agree :
    (∀ m, DatabaseService.convert_channel_configs_to_json_serializable m
        = AsyncDatabaseService.convert_channel_configs_to_json_serializable m)
    ∧ (∀ j, DatabaseService.convert_json_to_channel_configs j
        = AsyncDatabaseService.convert_json_to_channel_configs j) := by
  have hstep : DatabaseService.decodeStep = AsyncDatabaseService.decodeStep := by
    funext acc kv
    rw [DatabaseService.decodeStep, AsyncDatabaseService.decodeStep, decodeEntry_eq]
  constructor
  · intro m
    unfold DatabaseService.convert_channel_configs_to_json_serializable
      AsyncDatabaseService.convert_channel_configs_to_json_serializable
    simp only [dump_eq_dumpConfig]
  · intro j
    unfold DatabaseService.convert_json_to_channel_configs
      AsyncDatabaseService.convert_json_to_channel_configs
    rw [hstep]

theorem sync_async_codecs_agree_witness :
    DatabaseService.convert_json_to_channel_configs jMixed
      = AsyncDatabaseService.convert_json_to_channel_configs jMixed :=
  sync_async_codecs_agree.2 jMixed

end SmellerDb
